import Mathlib

/-!
Shallow embedding of the view-state controller in
`src/frontend-web/src/App.js` (the `App` React component).

The React component keeps six `useState` cells
(`currentDataset`, `loading`, `error`, `isAuthenticated`, `user`,
`activeTab`), reads/writes `localStorage` (the SessionStore), and calls
three gateway functions imported from `./services/api`
(`getLatestDataset`, `logout`, `downloadPDF`).

Each event handler of the component is embedded as the list of primitive
actions it performs, in source order; an asynchronous gateway call is one
action in the list, and the handler's resumption after `await` follows it.
The result of an awaited call is a parameter of the handler, so each
branch of the JS `try`/`catch` appears as the corresponding match arm.
Running an action list over a `World` (component state + localStorage +
log of issued gateway calls) folds the actions left to right.
-/

namespace App

/-- The `activeTab` navigation state: the string values `'upload'`,
`'summary'`, `'table'`, `'charts'`, `'history'`, `'login'` used in
`App.js`. -/
inductive Tab
  | upload
  | summary
  | table
  | charts
  | history
  | login
deriving DecidableEq, Repr

/-- An opaque user record. The controller only reads `user?.username`
for display and otherwise treats it as an opaque value serialized
to/from `localStorage` as text. -/
structure UserRecord where
  username : String
deriving DecidableEq, Repr

/-- An opaque identified dataset record. The controller reads `.id`
(for `downloadPDF(currentDataset.id)`) and passes the rest through
untouched; `payload` stands for the opaque remaining fields
(e.g. `raw_data_parsed`). -/
structure Dataset where
  id : String
  payload : String
deriving DecidableEq, Repr

/-- The argument of `handleUploadSuccess`: the handler receives `data`
and reads `data.dataset`. -/
structure UploadData where
  dataset : Dataset
deriving DecidableEq, Repr

/-- Model of `JSON.stringify` on a one-field user record, as performed by
`handleLoginSuccess` (`JSON.stringify(userData)`). -/
def stringifyUser (u : UserRecord) : String :=
  "\x7b\"username\":\"" ++ u.username ++ "\"\x7d"

/-- Model of `JSON.parse` on the stored user text, as performed by the
mount effect (`JSON.parse(savedUser)`): inverse of `stringifyUser`. -/
def parseUser (s : String) : UserRecord :=
  ⟨(s.drop 13).dropRight 2⟩

/-- The result of an awaited `getLatestDataset()` call: either a dataset
payload, or a rejection carrying `err.response?.status`
(`none` when there is no HTTP response, e.g. a network failure). -/
inductive FetchResult
  | ok (d : Dataset)
  | err (status : Option Nat)
deriving DecidableEq, Repr

/-- The result of an awaited `logout()` or `downloadPDF(id)` call:
the controller only distinguishes fulfilment from rejection. -/
inductive CallResult
  | success
  | failure
deriving DecidableEq, Repr

/-- A gateway call issued by the controller (the three `services/api`
functions it imports and invokes). -/
inductive GatewayCall
  | fetchLatest
  | logoutCall
  | download (id : String)
deriving DecidableEq, Repr

/-- A primitive action performed by an event handler, in source order:
one `setX` state update, one gateway call, one `localStorage`
access, or one `console.error`. -/
inductive Action
  | setDataset (d : Option Dataset)
  | setLoading (b : Bool)
  | setError (e : Option String)
  | setAuth (b : Bool)
  | setUser (u : Option UserRecord)
  | setTab (t : Tab)
  | callFetchLatest
  | callLogout
  | callDownload (id : String)
  | storeSet (key val : String)
  | storeRemove (key : String)
  | consoleError (msg : String)
deriving DecidableEq, Repr

/-- The component state: the six `useState` cells of `App`. -/
structure AppState where
  currentDataset : Option Dataset
  loading : Bool
  error : Option String
  isAuthenticated : Bool
  user : Option UserRecord
  activeTab : Tab
deriving DecidableEq, Repr

/-- The initial `useState` values:
`useState(null)`, `useState(false)`, `useState(null)`,
`useState(false)`, `useState(null)`, `useState('upload')`. -/
def initialState : AppState :=
  { currentDataset := none
    loading := false
    error := none
    isAuthenticated := false
    user := none
    activeTab := Tab.upload }

/-- The SessionStore (`localStorage`): the two keys the component uses,
`'authToken'` and `'user'`, each holding text or absent. -/
structure Store where
  authToken : Option String
  userText : Option String
deriving DecidableEq, Repr

/-- An empty SessionStore. -/
def emptyStore : Store := { authToken := none, userText := none }

/-- Model of `localStorage.getItem(key)` for the two keys in use. -/
def storeGet (s : Store) (key : String) : Option String :=
  if key = "authToken" then s.authToken
  else if key = "user" then s.userText
  else none

/-- Model of `localStorage.setItem(key, val)` for the two keys in use. -/
def storeSetItem (s : Store) (key val : String) : Store :=
  if key = "authToken" then { s with authToken := some val }
  else if key = "user" then { s with userText := some val }
  else s

/-- Model of `localStorage.removeItem(key)` for the two keys in use. -/
def storeRemoveItem (s : Store) (key : String) : Store :=
  if key = "authToken" then { s with authToken := none }
  else if key = "user" then { s with userText := none }
  else s

/-- JavaScript truthiness of a `localStorage.getItem` result:
`null` and the empty string are falsy, every other string is truthy. -/
def jsTruthy : Option String → Bool
  | none => false
  | some s => s != ""

/-- The whole world an event handler can affect: the component state,
the SessionStore, the list of gateway calls issued so far (in order),
and the `console.error` log. -/
structure World where
  state : AppState
  store : Store
  calls : List GatewayCall
  consoleLog : List String
deriving DecidableEq, Repr

/-- The world at process start: initial state, a given SessionStore
content, no calls issued, empty log. -/
def initialWorld (store : Store) : World :=
  { state := initialState, store := store, calls := [], consoleLog := [] }

/-- Effect of one primitive action on the world. -/
def applyAction (w : World) : Action → World
  | Action.setDataset d => { w with state := { w.state with currentDataset := d } }
  | Action.setLoading b => { w with state := { w.state with loading := b } }
  | Action.setError e => { w with state := { w.state with error := e } }
  | Action.setAuth b => { w with state := { w.state with isAuthenticated := b } }
  | Action.setUser u => { w with state := { w.state with user := u } }
  | Action.setTab t => { w with state := { w.state with activeTab := t } }
  | Action.callFetchLatest => { w with calls := w.calls ++ [GatewayCall.fetchLatest] }
  | Action.callLogout => { w with calls := w.calls ++ [GatewayCall.logoutCall] }
  | Action.callDownload i => { w with calls := w.calls ++ [GatewayCall.download i] }
  | Action.storeSet k v => { w with store := storeSetItem w.store k v }
  | Action.storeRemove k => { w with store := storeRemoveItem w.store k }
  | Action.consoleError m => { w with consoleLog := w.consoleLog ++ [m] }

/-- Run an action list left to right. -/
def runW (w : World) (as : List Action) : World :=
  as.foldl applyAction w

/-! ## Event handlers, translated from `App.js` -/

/-- The part of `loadLatestDataset` executed before `await
getLatestDataset()` resolves: `setLoading(true)` then the dispatch of
the gateway call. -/
def loadStart : List Action :=
  [Action.setLoading true, Action.callFetchLatest]

/-- The resumption of `loadLatestDataset` after `await
getLatestDataset()` settles: on fulfilment `setCurrentDataset(data);
setError(null)`; on rejection the `catch` block logs via
`console.error` unless `err.response?.status` is `404`; in both cases
the `finally` block runs `setLoading(false)`. -/
def loadResume (r : FetchResult) : List Action :=
  (match r with
   | FetchResult.ok d => [Action.setDataset (some d), Action.setError none]
   | FetchResult.err status =>
       if status ≠ some 404 then [Action.consoleError "Error loading dataset:"]
       else [])
  ++ [Action.setLoading false]

/-- `loadLatestDataset`, whole: dispatch phase then resumption on the
given result. -/
def loadLatestDataset (r : FetchResult) : List Action :=
  loadStart ++ loadResume r

/-- The session-restoring part of the mount `useEffect`: read
`authToken` and `user` from `localStorage`; `if (token && savedUser)`
(JS truthiness: present and nonempty) then `setIsAuthenticated(true)`
and `setUser(JSON.parse(savedUser))`. -/
def mountAuth (store : Store) : List Action :=
  match storeGet store "authToken", storeGet store "user" with
  | some token, some savedUser =>
      if token != "" && savedUser != "" then
        [Action.setAuth true, Action.setUser (some (parseUser savedUser))]
      else []
  | _, _ => []

/-- The synchronous part of the mount `useEffect`: the session restore,
then `loadLatestDataset()` up to (and including) the dispatch of
`getLatestDataset()`. -/
def mountSync (store : Store) : List Action :=
  mountAuth store ++ loadStart

/-- The whole mount event: the synchronous part, then the resumption of
the dataset load once its result arrives. -/
def mount (store : Store) (r : FetchResult) : List Action :=
  mountSync store ++ loadResume r

/-- `handleUploadSuccess(data)`: `setCurrentDataset(data.dataset);
setActiveTab('summary'); setError(null)`. -/
def handleUploadSuccess (data : UploadData) : List Action :=
  [Action.setDataset (some data.dataset), Action.setTab Tab.summary,
   Action.setError none]

/-- `handleSelectDataset(dataset)`: `setCurrentDataset(dataset);
setActiveTab('summary')`. -/
def handleSelectDataset (d : Dataset) : List Action :=
  [Action.setDataset (some d), Action.setTab Tab.summary]

/-- `handleLoginSuccess(userData, token)`:
`localStorage.setItem('authToken', token);
localStorage.setItem('user', JSON.stringify(userData));
setIsAuthenticated(true); setUser(userData)`. -/
def handleLoginSuccess (userData : UserRecord) (token : String) : List Action :=
  [Action.storeSet "authToken" token,
   Action.storeSet "user" (stringifyUser userData),
   Action.setAuth true, Action.setUser (some userData)]

/-- Modelled from the spec: the `logout` function of `./services/api`
is not under `src/`; per the spec ("SessionStore is mutated only by
`loginSucceeded` (write) and `logout` (clear)"), a successful logout
clears the persisted token and user from the SessionStore. -/
def apiLogoutClear : List Action :=
  [Action.storeRemove "authToken", Action.storeRemove "user"]

/-- `handleLogout`: `await logout()`, then on fulfilment
`setIsAuthenticated(false); setUser(null)` (with the gateway's
SessionStore clearing, see `apiLogoutClear`). There is no `try`/`catch`,
so on rejection the handler performs nothing further and the rejection
propagates. -/
def handleLogout (r : CallResult) : List Action :=
  Action.callLogout ::
    (match r with
     | CallResult.success =>
         apiLogoutClear ++ [Action.setAuth false, Action.setUser none]
     | CallResult.failure => [])

/-- `handleDownloadPDF`: guarded by `if (currentDataset)`; inside the
guard, `await downloadPDF(currentDataset.id)`, and on rejection the
`catch` block runs `setError('Failed to download PDF')`. -/
def handleDownloadPDF (s : AppState) (r : CallResult) : List Action :=
  match s.currentDataset with
  | some d =>
      Action.callDownload d.id ::
        (match r with
         | CallResult.success => []
         | CallResult.failure => [Action.setError (some "Failed to download PDF")])
  | none => []

/-- Dismissing the error banner: the banner button's
`onClick=\x7b() => setError(null)\x7d`. -/
def dismissError : List Action :=
  [Action.setError none]

/-- A navigation button: `onClick=\x7b() => setActiveTab(t)\x7d`. The
controller does not re-validate the tab; the view layer only disables
the buttons. -/
def requestTab (t : Tab) : List Action :=
  [Action.setTab t]

/-- Settlement of an async handler's returned promise: `resolved` when
the handler runs to completion, `rejected` when an exception escapes
it. -/
inductive Outcome
  | resolved
  | rejected
deriving DecidableEq, Repr

/-- `loadLatestDataset` wraps the call in `try`/`catch` with no rethrow,
so its promise always resolves. -/
def loadOutcome (_ : FetchResult) : Outcome := Outcome.resolved

/-- `handleLogout` has no `try`/`catch`: a rejection of `logout()`
propagates to the caller. -/
def logoutOutcome : CallResult → Outcome
  | CallResult.success => Outcome.resolved
  | CallResult.failure => Outcome.rejected

/-- `handleDownloadPDF` wraps the call in `try`/`catch` with no rethrow,
so its promise always resolves. -/
def downloadOutcome (_ : AppState) (_ : CallResult) : Outcome := Outcome.resolved

/-- Every event the controller exposes, with the settled result of the
gateway call the event triggers (when it triggers one). -/
inductive Event
  | mountEv (r : FetchResult)
  | loadEv (r : FetchResult)
  | uploadSucceededEv (data : UploadData)
  | selectDatasetEv (d : Dataset)
  | loginSucceededEv (u : UserRecord) (token : String)
  | logoutEv (r : CallResult)
  | downloadEv (r : CallResult)
  | dismissErrorEv
  | requestTabEv (t : Tab)
deriving DecidableEq, Repr

/-- The action trace an event produces from a given world. -/
def dispatch (w : World) : Event → List Action
  | Event.mountEv r => mount w.store r
  | Event.loadEv r => loadLatestDataset r
  | Event.uploadSucceededEv data => handleUploadSuccess data
  | Event.selectDatasetEv d => handleSelectDataset d
  | Event.loginSucceededEv u token => handleLoginSuccess u token
  | Event.logoutEv r => handleLogout r
  | Event.downloadEv r => handleDownloadPDF w.state r
  | Event.dismissErrorEv => dismissError
  | Event.requestTabEv t => requestTab t

/-- One full event step: run the event's trace over the world. -/
def step (w : World) (e : Event) : World :=
  runW w (dispatch w e)

/-! ## Predicates on action traces -/

/-- Whether an action dispatches a gateway call. -/
def isGatewayCall : Action → Bool
  | Action.callFetchLatest => true
  | Action.callLogout => true
  | Action.callDownload _ => true
  | _ => false

/-- Whether an action writes the `loading` cell. -/
def isSetLoading : Action → Bool
  | Action.setLoading _ => true
  | _ => false

/-- Whether an action writes or removes a SessionStore key. -/
def isStoreAction : Action → Bool
  | Action.storeSet _ _ => true
  | Action.storeRemove _ => true
  | _ => false

/-- Whether an action writes the `error` cell. -/
def isSetError : Action → Bool
  | Action.setError _ => true
  | _ => false

/-- Whether an action clears the `error` cell (writes `null` to it). -/
def isSetErrorNone : Action → Bool
  | Action.setError none => true
  | _ => false

/-- The SessionStore accesses of a trace. -/
def storeActions (as : List Action) : List Action :=
  as.filter isStoreAction

/-- Scan of the loading-flag protocol: starting with loading value
`cur`, every gateway call must be dispatched while loading is `true`,
and the trace must leave loading `false` at the end. -/
def loadingCheck : Bool → List Action → Bool
  | cur, [] => cur == false
  | _, Action.setLoading b :: rest => loadingCheck b rest
  | cur, a :: rest => (!isGatewayCall a || cur) && loadingCheck cur rest

/-- The three-phase contract of the spec for one handler trace:
`loading` is set to `true` before any gateway call is dispatched and is
`false` again once the handler completes. The initial loading value is
`false` (its `useState(false)` default). -/
def loadingProtocolOK (as : List Action) : Bool :=
  loadingCheck false as

/-- The events whose handler writes `null` into the `error` cell:
`dismissError`, `uploadSucceeded`, and a dataset load (standalone or
from mount) whose gateway call succeeds. -/
def clearsError : Event → Bool
  | Event.dismissErrorEv => true
  | Event.uploadSucceededEv _ => true
  | Event.loadEv (FetchResult.ok _) => true
  | Event.mountEv (FetchResult.ok _) => true
  | _ => false

/-- The events whose handler touches the SessionStore:
`loginSucceeded` (writes) and `logout` (clears, in the gateway). -/
def touchesStore : Event → Bool
  | Event.loginSucceededEv _ _ => true
  | Event.logoutEv _ => true
  | _ => false

/-! ## Sample values used by witnesses -/

/-- A concrete dataset. -/
def sampleDataset : Dataset := { id := "d1", payload := "rows" }

/-- A concrete user record. -/
def sampleUser : UserRecord := { username := "alice" }

/-- A world whose state holds a dataset (everything else initial). -/
def worldWithDataset : World :=
  { state := { initialState with currentDataset := some sampleDataset }
    store := emptyStore
    calls := []
    consoleLog := [] }

/-- A world whose state holds a dataset and a visible error banner. -/
def worldWithError : World :=
  { state := { initialState with
                currentDataset := some sampleDataset
                error := some "Failed to download PDF" }
    store := emptyStore
    calls := []
    consoleLog := [] }

/-- A world with an authenticated session (everything else initial). -/
def worldAuthed : World :=
  { state := { initialState with
                isAuthenticated := true
                user := some sampleUser }
    store := { authToken := some "tok1", userText := some (stringifyUser sampleUser) }
    calls := []
    consoleLog := [] }

/-! ## Frame lemmas -/

theorem runW_append (w : World) (as bs : List Action) :
    runW w (as ++ bs) = runW (runW w as) bs :=
  List.foldl_append _ _ _ _

theorem runW_store_eq (as : List Action) :
    ∀ w : World, as.all (fun a => !isStoreAction a) = true →
      (runW w as).store = w.store := by
  induction as with
  | nil => intro w _; rfl
  | cons a rest ih =>
    intro w h
    simp only [List.all_cons, Bool.and_eq_true] at h
    obtain ⟨h1, h2⟩ := h
    have hs : (applyAction w a).store = w.store := by
      cases a <;> simp_all [applyAction, isStoreAction]
    calc (runW w (a :: rest)).store
        = (runW (applyAction w a) rest).store := rfl
      _ = (applyAction w a).store := ih _ h2
      _ = w.store := hs

theorem runW_error_eq (as : List Action) :
    ∀ w : World, as.all (fun a => !isSetError a) = true →
      (runW w as).state.error = w.state.error := by
  induction as with
  | nil => intro w _; rfl
  | cons a rest ih =>
    intro w h
    simp only [List.all_cons, Bool.and_eq_true] at h
    obtain ⟨h1, h2⟩ := h
    have hs : (applyAction w a).state.error = w.state.error := by
      cases a <;> simp_all [applyAction, isSetError]
    calc (runW w (a :: rest)).state.error
        = (runW (applyAction w a) rest).state.error := rfl
      _ = (applyAction w a).state.error := ih _ h2
      _ = w.state.error := hs

theorem error_none_of_runW (as : List Action) :
    ∀ w : World, as.all (fun a => !isSetErrorNone a) = true →
      (runW w as).state.error = none → w.state.error = none := by
  induction as with
  | nil => intro w _ h; exact h
  | cons a rest ih =>
    intro w h hrun
    simp only [List.all_cons, Bool.and_eq_true] at h
    obtain ⟨h1, h2⟩ := h
    have hmid : (applyAction w a).state.error = none := ih _ h2 hrun
    cases a <;> simp_all [applyAction, isSetErrorNone]

theorem store_runW_loadStart (w : World) : (runW w loadStart).store = w.store :=
  rfl

theorem store_runW_loadResume (w : World) (r : FetchResult) :
    (runW w (loadResume r)).store = w.store := by
  cases r with
  | ok d => rfl
  | err status =>
      by_cases h : status = some 404 <;> simp [loadResume, h, runW, applyAction]

theorem store_runW_mountAuth (w : World) (store : Store) :
    (runW w (mountAuth store)).store = w.store := by
  rw [mountAuth]
  rcases storeGet store "authToken" with _ | tk
  · rfl
  · rcases storeGet store "user" with _ | us
    · rfl
    · by_cases hc : (tk != "" && us != "") = true
      · simp [hc, runW, applyAction]
      · simp only [Bool.not_eq_true] at hc
        simp [hc, runW, applyAction]

theorem loadingCheck_append_neutral (pre rest : List Action) (cur : Bool)
    (h : pre.all (fun a => !isSetLoading a && !isGatewayCall a) = true) :
    loadingCheck cur (pre ++ rest) = loadingCheck cur rest := by
  induction pre with
  | nil => rfl
  | cons a p ih =>
    simp only [List.all_cons, Bool.and_eq_true] at h
    obtain ⟨⟨hl, hc⟩, hp⟩ := h
    cases a <;> simp_all [loadingCheck, isSetLoading, isGatewayCall]

theorem mountAuth_all (store : Store) (p : Action → Bool)
    (h1 : p (Action.setAuth true) = true)
    (h2 : ∀ u, p (Action.setUser u) = true) :
    (mountAuth store).all p = true := by
  rw [mountAuth]
  rcases storeGet store "authToken" with _ | tk
  · rfl
  · rcases storeGet store "user" with _ | us
    · rfl
    · by_cases hc : (tk != "" && us != "") = true
      · simp [hc, h1, h2]
      · simp only [Bool.not_eq_true] at hc
        simp [hc]

theorem mountAuth_neutral (store : Store) :
    (mountAuth store).all (fun a => !isSetLoading a && !isGatewayCall a) = true :=
  mountAuth_all store _ rfl (fun _ => rfl)

theorem loadResume_err_all (status : Option Nat) (p : Action → Bool)
    (hc : ∀ m, p (Action.consoleError m) = true)
    (hl : ∀ b, p (Action.setLoading b) = true) :
    (loadResume (FetchResult.err status)).all p = true := by
  by_cases h : status = some 404 <;> simp [loadResume, h, hc, hl]

theorem parseUser_stringifyUser_sample :
    parseUser (stringifyUser sampleUser) = sampleUser := by
  decide

theorem storeGet_token (s : Store) : storeGet s "authToken" = s.authToken :=
  rfl

theorem storeGet_user (s : Store) : storeGet s "user" = s.userText := by
  rw [storeGet, if_neg (by decide), if_pos rfl]

theorem storeSetItem_token (s : Store) (v : String) :
    storeSetItem s "authToken" v = { s with authToken := some v } :=
  rfl

theorem storeSetItem_user (s : Store) (v : String) :
    storeSetItem s "user" v = { s with userText := some v } := by
  rw [storeSetItem, if_neg (by decide), if_pos rfl]

theorem storeRemoveItem_token (s : Store) :
    storeRemoveItem s "authToken" = { s with authToken := none } :=
  rfl

theorem storeRemoveItem_user (s : Store) :
    storeRemoveItem s "user" = { s with userText := none } := by
  rw [storeRemoveItem, if_neg (by decide), if_pos rfl]

/-! ## Claim theorems -/

/-- C1 counterexample: `handleLogout` (here with a successful gateway
call) dispatches a gateway call, yet its trace violates the loading
protocol — it never sets `loading` to `true` before the dispatch — so
the claim that every gateway-calling operation follows the protocol is
false. -/
theorem logout_skips_loading_cex :
    (handleLogout CallResult.success).any isGatewayCall = true ∧
    loadingProtocolOK (handleLogout CallResult.success) = false := by
  decide

/-- C1 amended: only the dataset load follows the loading protocol:
`loadLatestDataset` (standalone or as issued from mount) sets `loading`
to `true` before dispatching `getLatestDataset()` and resets it to
`false` in its `finally` cleanup regardless of success or failure;
`handleLogout` and `handleDownloadPDF` issue their gateway calls
without ever touching `loading`. -/
theorem loading_protocol_amended :
    ∀ (store : Store) (rf : FetchResult) (rl rd : CallResult) (s : AppState),
      loadingProtocolOK (loadLatestDataset rf) = true ∧
      loadingProtocolOK (mount store rf) = true ∧
      (handleLogout rl).all (fun a => !isSetLoading a) = true ∧
      (handleDownloadPDF s rd).all (fun a => !isSetLoading a) = true := by
  intro store rf rl rd s
  have hload : loadingProtocolOK (loadLatestDataset rf) = true := by
    cases rf with
    | ok d =>
        simp [loadLatestDataset, loadStart, loadResume, loadingProtocolOK,
          loadingCheck, isGatewayCall]
    | err status =>
        by_cases h : status = some 404 <;>
          simp [loadLatestDataset, loadStart, loadResume, loadingProtocolOK,
            loadingCheck, isGatewayCall, h]
  refine ⟨hload, ?_, ?_, ?_⟩
  · rw [loadingProtocolOK, mount, mountSync, List.append_assoc,
      loadingCheck_append_neutral _ _ _ (mountAuth_neutral store)]
    exact hload
  · cases rl <;> simp [handleLogout, apiLogoutClear, isSetLoading]
  · rcases hs : s.currentDataset with _ | d <;> cases rd <;>
      simp [handleDownloadPDF, hs, isSetLoading]

/-- C2: the SessionStore is mutated by exactly two operations —
`handleLoginSuccess` writes the token and the serialized user,
a successful `handleLogout` clears both keys (via the gateway,
modelled from the spec), and every other event leaves the store
untouched. -/
theorem sessionStore_mutators (w : World) (e : Event) (u : UserRecord)
    (token : String) (h : touchesStore e = false) :
    (step w e).store = w.store ∧
    storeActions (handleLoginSuccess u token) =
      [Action.storeSet "authToken" token,
       Action.storeSet "user" (stringifyUser u)] ∧
    storeActions (handleLogout CallResult.success) =
      [Action.storeRemove "authToken", Action.storeRemove "user"] ∧
    storeActions (handleLogout CallResult.failure) = [] := by
  refine ⟨?_, ?_, by decide, by decide⟩
  · cases e with
    | mountEv r =>
        show (runW w (mount w.store r)).store = w.store
        rw [mount, runW_append, mountSync, runW_append,
          store_runW_loadResume, store_runW_loadStart, store_runW_mountAuth]
    | loadEv r =>
        show (runW w (loadLatestDataset r)).store = w.store
        rw [loadLatestDataset, runW_append, store_runW_loadResume,
          store_runW_loadStart]
    | uploadSucceededEv data => rfl
    | selectDatasetEv d => rfl
    | loginSucceededEv u' t' => simp [touchesStore] at h
    | logoutEv r => simp [touchesStore] at h
    | downloadEv r =>
        show (runW w (handleDownloadPDF w.state r)).store = w.store
        rcases hs : w.state.currentDataset with _ | d <;> cases r <;>
          simp [handleDownloadPDF, hs, runW, applyAction]
    | dismissErrorEv => rfl
    | requestTabEv t => rfl
  · simp [storeActions, handleLoginSuccess, isStoreAction, List.filter]

/-- C2 witness: instantiated at `dismissError` (an event outside the
two store mutators), the initial world, and a concrete user/token. -/
theorem sessionStore_mutators_witness :
    (step (initialWorld emptyStore) Event.dismissErrorEv).store =
      (initialWorld emptyStore).store ∧
    storeActions (handleLoginSuccess sampleUser "tok1") =
      [Action.storeSet "authToken" "tok1",
       Action.storeSet "user" (stringifyUser sampleUser)] ∧
    storeActions (handleLogout CallResult.success) =
      [Action.storeRemove "authToken", Action.storeRemove "user"] ∧
    storeActions (handleLogout CallResult.failure) = [] :=
  sessionStore_mutators (initialWorld emptyStore) Event.dismissErrorEv
    sampleUser "tok1" (by decide)

/-- C3: whenever `getLatestDataset()` rejects — with a 404, with any
other status, or with no HTTP response at all — a `loadLatestDataset`
run started from a state with no error and no dataset leaves
`state.error` absent (nothing is surfaced to the user) and
`state.currentDataset` absent. -/
theorem load_failure_keeps_error_dataset_absent (w : World) (status : Option Nat)
    (he : w.state.error = none) (hd : w.state.currentDataset = none) :
    (runW w (loadLatestDataset (FetchResult.err status))).state.error = none ∧
    (runW w (loadLatestDataset (FetchResult.err status))).state.currentDataset
      = none := by
  by_cases h : status = some 404 <;>
    simp [loadLatestDataset, loadStart, loadResume, h, runW, applyAction, he, hd]

/-- C3 witness: a rejection with status 500 from the initial world. -/
theorem load_failure_keeps_error_dataset_absent_witness :
    (runW (initialWorld emptyStore)
        (loadLatestDataset (FetchResult.err (some 500)))).state.error = none ∧
    (runW (initialWorld emptyStore)
        (loadLatestDataset (FetchResult.err (some 500)))).state.currentDataset
      = none :=
  load_failure_keeps_error_dataset_absent (initialWorld emptyStore) (some 500)
    rfl rfl

/-- C4: after `handleUploadSuccess` with payload `data.dataset = d`,
the state holds `currentDataset = d`, `error` is absent, and the
active tab is `summary` — from any starting world. -/
theorem upload_success_state (w : World) (d : Dataset) :
    (runW w (handleUploadSuccess ⟨d⟩)).state.currentDataset = some d ∧
    (runW w (handleUploadSuccess ⟨d⟩)).state.error = none ∧
    (runW w (handleUploadSuccess ⟨d⟩)).state.activeTab = Tab.summary :=
  ⟨rfl, rfl, rfl⟩

/-- C5: with a dataset present, a failing `handleDownloadPDF` sets
`error` to exactly `"Failed to download PDF"` and changes nothing else
(same dataset, loading, session, tab, SessionStore; the one issued
gateway call is the download); a subsequent `dismissError` only clears
`error` and issues no further gateway call. -/
theorem download_failure_sets_banner (w : World) (d : Dataset)
    (hd : w.state.currentDataset = some d) :
    runW w (handleDownloadPDF w.state CallResult.failure) =
      { w with
          state := { w.state with error := some "Failed to download PDF" }
          calls := w.calls ++ [GatewayCall.download d.id] } ∧
    runW (runW w (handleDownloadPDF w.state CallResult.failure)) dismissError =
      { w with
          state := { w.state with error := none }
          calls := w.calls ++ [GatewayCall.download d.id] } := by
  constructor <;>
    simp [handleDownloadPDF, hd, dismissError, runW, applyAction]

/-- C5 witness: instantiated at a world holding `sampleDataset`. -/
theorem download_failure_sets_banner_witness :
    runW worldWithDataset
        (handleDownloadPDF worldWithDataset.state CallResult.failure) =
      { worldWithDataset with
          state := { worldWithDataset.state with
                      error := some "Failed to download PDF" }
          calls := worldWithDataset.calls ++
            [GatewayCall.download sampleDataset.id] } ∧
    runW (runW worldWithDataset
          (handleDownloadPDF worldWithDataset.state CallResult.failure))
        dismissError =
      { worldWithDataset with
          state := { worldWithDataset.state with error := none }
          calls := worldWithDataset.calls ++
            [GatewayCall.download sampleDataset.id] } :=
  download_failure_sets_banner worldWithDataset sampleDataset rfl

/-- C6: from an unauthenticated state, `handleLoginSuccess u token`
persists the token and the serialized user to the SessionStore and sets
`isAuthenticated = true`, `user = u`; a subsequent `handleLogout` whose
gateway call succeeds sets `isAuthenticated = false` and `user` to
absent. -/
theorem login_then_logout (w : World) (u : UserRecord) (token : String)
    (_h : w.state.isAuthenticated = false) :
    (runW w (handleLoginSuccess u token)).store.authToken = some token ∧
    (runW w (handleLoginSuccess u token)).store.userText
      = some (stringifyUser u) ∧
    (runW w (handleLoginSuccess u token)).state.isAuthenticated = true ∧
    (runW w (handleLoginSuccess u token)).state.user = some u ∧
    (runW (runW w (handleLoginSuccess u token))
        (handleLogout CallResult.success)).state.isAuthenticated = false ∧
    (runW (runW w (handleLoginSuccess u token))
        (handleLogout CallResult.success)).state.user = none := by
  simp [handleLoginSuccess, handleLogout, apiLogoutClear, runW, applyAction,
    storeSetItem_token, storeSetItem_user, storeRemoveItem_token,
    storeRemoveItem_user]

/-- C6 witness: `alice` logs in with token `tok1` from the initial
world, then logs out. -/
theorem login_then_logout_witness :
    (runW (initialWorld emptyStore)
        (handleLoginSuccess sampleUser "tok1")).store.authToken = some "tok1" ∧
    (runW (initialWorld emptyStore)
        (handleLoginSuccess sampleUser "tok1")).store.userText
      = some (stringifyUser sampleUser) ∧
    (runW (initialWorld emptyStore)
        (handleLoginSuccess sampleUser "tok1")).state.isAuthenticated = true ∧
    (runW (initialWorld emptyStore)
        (handleLoginSuccess sampleUser "tok1")).state.user = some sampleUser ∧
    (runW (runW (initialWorld emptyStore) (handleLoginSuccess sampleUser "tok1"))
        (handleLogout CallResult.success)).state.isAuthenticated = false ∧
    (runW (runW (initialWorld emptyStore) (handleLoginSuccess sampleUser "tok1"))
        (handleLogout CallResult.success)).state.user = none :=
  login_then_logout (initialWorld emptyStore) sampleUser "tok1" rfl

/-- C7: if at mount time the SessionStore holds a (nonempty) token and
a (nonempty) serialized user record, then already after the synchronous
part of mount — before the `getLatestDataset()` result arrives —
`isAuthenticated` is `true` and `user` is the stored record,
deserialized from its text form. -/
theorem mount_restores_session (w : World) (tk us : String)
    (h1 : w.store.authToken = some tk) (h2 : tk ≠ "")
    (h3 : w.store.userText = some us) (h4 : us ≠ "") :
    (runW w (mountSync w.store)).state.isAuthenticated = true ∧
    (runW w (mountSync w.store)).state.user = some (parseUser us) := by
  have e2 : (tk != "") = true := by simpa using h2
  have e4 : (us != "") = true := by simpa using h4
  have hm : runW w (mountAuth w.store) =
      { w with state := { w.state with
                           isAuthenticated := true
                           user := some (parseUser us) } } := by
    rw [mountAuth, storeGet_token, storeGet_user, h1, h3]
    simp [e2, e4, runW, applyAction]
  rw [mountSync, runW_append, hm]
  exact ⟨rfl, rfl⟩

/-- C7 witness: the store holds `tok1` and the serialized `alice`
record. -/
theorem mount_restores_session_witness :
    (runW worldAuthed (mountSync worldAuthed.store)).state.isAuthenticated
      = true ∧
    (runW worldAuthed (mountSync worldAuthed.store)).state.user
      = some (parseUser (stringifyUser sampleUser)) :=
  mount_restores_session worldAuthed "tok1" (stringifyUser sampleUser)
    rfl (by decide) rfl (by decide)

/-- C8: with no dataset present, `handleDownloadPDF` is a no-op
whatever the would-be call result: no gateway call is issued and the
whole world — every state field, the store, the call log — is
unchanged. -/
theorem download_no_dataset_noop (w : World) (r : CallResult)
    (hd : w.state.currentDataset = none) :
    runW w (handleDownloadPDF w.state r) = w := by
  simp [handleDownloadPDF, hd, runW]

/-- C8 witness: the initial world (no dataset). -/
theorem download_no_dataset_noop_witness :
    runW (initialWorld emptyStore)
        (handleDownloadPDF (initialWorld emptyStore).state CallResult.failure)
      = initialWorld emptyStore :=
  download_no_dataset_noop (initialWorld emptyStore) CallResult.failure rfl

/-- C9: when the `logout()` gateway call rejects, `handleLogout`
leaves the component state (and the store) entirely unchanged —
`isAuthenticated` stays `true`, `user` stays present — and, having no
`try`/`catch`, the rejection propagates to the caller. -/
theorem logout_failure_unchanged (w : World) (u : UserRecord)
    (ha : w.state.isAuthenticated = true) (hu : w.state.user = some u) :
    (runW w (handleLogout CallResult.failure)).state = w.state ∧
    (runW w (handleLogout CallResult.failure)).state.isAuthenticated = true ∧
    (runW w (handleLogout CallResult.failure)).state.user = some u ∧
    (runW w (handleLogout CallResult.failure)).store = w.store ∧
    logoutOutcome CallResult.failure = Outcome.rejected :=
  ⟨rfl, ha, hu, rfl, rfl⟩

/-- C9 witness: an authenticated world with user `alice`. -/
theorem logout_failure_unchanged_witness :
    (runW worldAuthed (handleLogout CallResult.failure)).state
      = worldAuthed.state ∧
    (runW worldAuthed (handleLogout CallResult.failure)).state.isAuthenticated
      = true ∧
    (runW worldAuthed (handleLogout CallResult.failure)).state.user
      = some sampleUser ∧
    (runW worldAuthed (handleLogout CallResult.failure)).store
      = worldAuthed.store ∧
    logoutOutcome CallResult.failure = Outcome.rejected :=
  logout_failure_unchanged worldAuthed sampleUser rfl rfl

/-- C10: a `handleDownloadPDF` whose gateway call succeeds leaves
`error` untouched (an error banner present before is still present);
and across every event of the controller, only `dismissError`,
`uploadSucceeded`, and a dataset load (standalone or from mount) whose
fetch succeeds can take `error` from present to absent — every event
outside that set that ends with `error` absent started with it absent —
while each event in that set does end with `error` absent. -/
theorem error_cleared_only_by_three (w w2 : World) (e e' : Event)
    (h : clearsError e = false) (h' : clearsError e' = true) :
    (runW w (handleDownloadPDF w.state CallResult.success)).state.error
      = w.state.error ∧
    ((step w e).state.error = none → w.state.error = none) ∧
    (step w2 e').state.error = none := by
  refine ⟨?_, ?_, ?_⟩
  · rcases hs : w.state.currentDataset with _ | d <;>
      simp [handleDownloadPDF, hs, runW, applyAction]
  · intro hnone
    refine error_none_of_runW _ w ?_ hnone
    cases e with
    | mountEv r =>
        cases r with
        | ok d => simp [clearsError] at h
        | err status =>
            have hA : (mountAuth w.store).all (fun a => !isSetErrorNone a)
                = true := mountAuth_all _ _ rfl (fun _ => rfl)
            have hR : (loadResume (FetchResult.err status)).all
                (fun a => !isSetErrorNone a) = true :=
              loadResume_err_all _ _ (fun _ => rfl) (fun _ => rfl)
            show (mount w.store (FetchResult.err status)).all
              (fun a => !isSetErrorNone a) = true
            rw [mount, mountSync, List.all_append, List.all_append, hA, hR]
            rfl
    | loadEv r =>
        cases r with
        | ok d => simp [clearsError] at h
        | err status =>
            have hR : (loadResume (FetchResult.err status)).all
                (fun a => !isSetErrorNone a) = true :=
              loadResume_err_all _ _ (fun _ => rfl) (fun _ => rfl)
            show (loadLatestDataset (FetchResult.err status)).all
              (fun a => !isSetErrorNone a) = true
            rw [loadLatestDataset, List.all_append, hR]
            rfl
    | uploadSucceededEv data => simp [clearsError] at h
    | selectDatasetEv d => rfl
    | loginSucceededEv u t => rfl
    | logoutEv r => cases r <;> rfl
    | downloadEv r =>
        show (handleDownloadPDF w.state r).all (fun a => !isSetErrorNone a)
          = true
        rcases hs : w.state.currentDataset with _ | d <;> cases r <;>
          simp [handleDownloadPDF, hs, isSetErrorNone]
    | dismissErrorEv => simp [clearsError] at h
    | requestTabEv t => rfl
  · cases e' with
    | mountEv r =>
        cases r with
        | ok d =>
            show (runW w2 (mount w2.store (FetchResult.ok d))).state.error
              = none
            rw [mount, runW_append]
            rfl
        | err status => simp [clearsError] at h'
    | loadEv r =>
        cases r with
        | ok d => rfl
        | err status => simp [clearsError] at h'
    | uploadSucceededEv data => rfl
    | dismissErrorEv => rfl
    | selectDatasetEv d => simp [clearsError] at h'
    | loginSucceededEv u t => simp [clearsError] at h'
    | logoutEv r => simp [clearsError] at h'
    | downloadEv r => simp [clearsError] at h'
    | requestTabEv t => simp [clearsError] at h'

/-- C10 witness: a world with a visible banner; a failing download is
outside the clearing set, `dismissError` is inside it. -/
theorem error_cleared_only_by_three_witness :
    (runW worldWithError
        (handleDownloadPDF worldWithError.state CallResult.success)).state.error
      = worldWithError.state.error ∧
    ((step worldWithError (Event.downloadEv CallResult.failure)).state.error
        = none → worldWithError.state.error = none) ∧
    (step worldWithError Event.dismissErrorEv).state.error = none :=
  error_cleared_only_by_three worldWithError worldWithError
    (Event.downloadEv CallResult.failure) Event.dismissErrorEv
    (by decide) (by decide)

end App
